import Mathlib

/-!
Verification of the dummycloud UDP server (src/main.rs, src/payload.rs)
against its natural-language specification.

The embedding models:
  - the JSON values the dispatcher builds (a small inductive `Json`),
  - the payload types of src/payload.rs (`MessagePayload`, `ResponsePayload`),
  - the handshake/timesync packet builder `create_timesync_packet`,
  - the per-datagram dispatch step of the receive loop in `main`
    (`processDatagram`), parameterised over the codec operations and the
    JSON parser, which are external to the examined source files,
  - a codec modelled from the spec (the file src/codec.rs is referenced
    by main.rs via `mod codec;` but its body is not under src/).

Bytes are modelled as `Nat` (values < 256 on the wire); machine integers
use explicit `% 2^w` where the code truncates.
-/

/-- JSON values, mirroring the serde_json `Value` shapes that the
dispatcher constructs with the `json!` macro calls in main.rs. -/
inductive Json where
  | null
  | bool (b : Bool)
  | num (n : Int)
  | str (s : String)
  | arr (xs : List Json)
  | obj (fields : List (String × Json))
deriving Repr

/-- src/payload.rs `MessagePayload`: the decoded request message.
`id` is a `u32` in the source; parsed values are below 2^32. -/
structure MessagePayload where
  method : String
  partner_id : Option String
  id : Nat
  params : Json
deriving Repr

/-- src/payload.rs `ResponsePayload`: the response message (id, result). -/
structure ResponsePayload where
  id : Nat
  result : Json
deriving Repr

/-- src/payload.rs `ResponsePayload::new`. -/
def ResponsePayload.new (id : Nat) (result : Json) : ResponsePayload :=
  { id := id, result := result }

/-- Big-endian encoding of a 32-bit value into four bytes, as done by
`put_u32` of the bytes crate. -/
def be32 (n : Nat) : List Nat :=
  [n / 16777216 % 256, n / 65536 % 256, n / 256 % 256, n % 256]

/-- Big-endian read of a 32-bit value from the first four bytes of a
slice, as done by `get_u32` of the bytes crate.  All call sites in
main.rs pass a slice of a 32-byte header, so at least four bytes remain;
the catch-all branch is unreachable there. -/
def beU32 : List Nat → Nat
  | a :: b :: c :: d :: _ => ((a * 256 + b) * 256 + c) * 256 + d
  | _ => 0

/-- src/main.rs `create_timesync_packet`, with the current wall-clock
second count passed explicitly (`SystemTime::now()` is external).  The
source truncates the `u64` second count with `as u32`, modelled by
`% 4294967296`, and writes it big-endian with `put_u32`. -/
def create_timesync_packet (now : Nat) : List Nat :=
  [0x21, 0x31] ++ [0x00, 0x20] ++ List.replicate 8 0xff
    ++ be32 (now % 4294967296) ++ List.replicate 16 0xff

/-- The stamp field read by main.rs line 87:
`(&header[12..]).get_u32()` where `header = &buf[..32]`. -/
def stampOf (buf : List Nat) : Nat :=
  beU32 ((buf.take 32).drop 12)

/-- The device identifier read by main.rs line 88:
`(&header[8..]).get_u32()` where `header = &buf[..32]`. -/
def deviceIdOf (buf : List Nat) : Nat :=
  beU32 ((buf.take 32).drop 8)

mutual

/-- Renders a JSON value to text, as `serde_json::to_vec` does for the
values built in main.rs (struct fields in declaration order; none of the
strings involved needs escaping). -/
def renderJson : Json → String
  | .null => "null"
  | .bool true => "true"
  | .bool false => "false"
  | .num n => toString n
  | .str s => "\"" ++ s ++ "\""
  | .arr xs => "[" ++ renderJsonArr xs ++ "]"
  | .obj fs => "\x7b" ++ renderJsonObj fs ++ "\x7d"

/-- Comma-separated rendering of a JSON array body. -/
def renderJsonArr : List Json → String
  | [] => ""
  | [x] => renderJson x
  | x :: y :: xs => renderJson x ++ "," ++ renderJsonArr (y :: xs)

/-- Comma-separated rendering of a JSON object body. -/
def renderJsonObj : List (String × Json) → String
  | [] => ""
  | [(k, v)] => "\"" ++ k ++ "\":" ++ renderJson v
  | (k, v) :: f :: fs =>
      "\"" ++ k ++ "\":" ++ renderJson v ++ "," ++ renderJsonObj (f :: fs)

end

/-- `serde_json::to_vec(&reply_json)` for a `ResponsePayload` (main.rs
line 155): the serialized bytes of the two-field struct. -/
def serializeResponse (rp : ResponsePayload) : List Nat :=
  (renderJson (Json.obj [("id", Json.num (Int.ofNat rp.id)),
    ("result", rp.result)])).toUTF8.toList.map (fun b => b.toNat)

/-- The `result` value built by the json! literal of the `_otc.info`
branch (main.rs lines 110-125). -/
def otcInfoResult : Json :=
  Json.obj
    [("otc_list",
       Json.arr [Json.obj [("ip", Json.str "130.83.47.181"),
                           ("port", Json.num 8053)]]),
     ("otc_test",
       Json.obj
         [("list",
            Json.arr [Json.obj [("ip", Json.str "130.83.47.181"),
                                ("port", Json.num 8053)]]),
          ("interval", Json.num 1800),
          ("firsttest", Json.num 1193)])]

/-- The `result` value built by the json! literal of the
`_sync.gen_presigned_url` branch (main.rs lines 132-139); `now` is the
current wall-clock second count read there. -/
def presignedUrlResult (now : Nat) : Json :=
  Json.obj
    [("",
       Json.obj
         [("url", Json.str "http://us.ott.io.mi.com/robomap"),
          ("obj_name", Json.str "something"),
          ("method", Json.str "PUT"),
          ("expires_time", Json.num (Int.ofNat (now + 3600))),
          ("ok", Json.bool true),
          ("pwd", Json.str "password")])]

/-- The `result` value built by the json! literal of the
`_sync.batch_gen_room_up_url` branch (main.rs lines 143-148). -/
def roomUpUrlsResult : Json :=
  Json.arr
    [Json.str "http://us.ott.io.mi.com/robomap/1",
     Json.str "http://us.ott.io.mi.com/robomap/2",
     Json.str "http://us.ott.io.mi.com/robomap/3",
     Json.str "http://us.ott.io.mi.com/robomap/4"]

/-- The routing table of main.rs lines 107-154: maps a parsed request to
the `ResponsePayload` to send, or `none` for the default branch (line
150: log the unknown method and continue, no reply). -/
def route (msg : MessagePayload) (now : Nat) : Option ResponsePayload :=
  if msg.method = "_otc.info" then
    some (ResponsePayload.new msg.id otcInfoResult)
  else if msg.method = "props" ∨ msg.method = "event.status"
      ∨ msg.method = "event.low_power_back" then
    some (ResponsePayload.new msg.id (Json.str "ok"))
  else if msg.method = "_sync.gen_presigned_url" then
    some (ResponsePayload.new msg.id (presignedUrlResult now))
  else if msg.method = "_sync.batch_gen_room_up_url" then
    some (ResponsePayload.new msg.id roomUpUrlsResult)
  else
    none

/-- Outcome of processing one received datagram in the receive loop of
main.rs: `crash` models the out-of-bounds slice panic, `sent bs` models
exactly one `socket.send_to(bs, src)` followed by the next loop
iteration, `silent` models `continue` with no send. -/
inductive StepResult where
  | crash
  | sent (bytes : List Nat)
  | silent
deriving Repr, DecidableEq

/-- One iteration of the receive loop of main.rs (lines 83-156), after
`recv_from` delivered the `buf.length` bytes `buf`.  The codec
operations (`mod codec`, not part of the examined source), the
serde_json parser and the wall clock are passed in as parameters:
  - `decode` is `UDPCodec::decode_response(header, encrypted_body)`,
  - `encode` is `UDPCodec::encode_response(bytes, device_id)`,
  - `parseMsg` is `serde_json::from_str::<MessagePayload>`,
  - `now` is the current epoch second count.
`&buf[..32]` and `&buf[32..]` panic when fewer than 32 bytes were
received, modelled by the `crash` branch. -/
def processDatagram (decode : List Nat → List Nat → Option String)
    (encode : List Nat → Nat → List Nat)
    (parseMsg : String → Option MessagePayload)
    (now : Nat) (buf : List Nat) : StepResult :=
  if buf.length < 32 then .crash
  else
    match decode (buf.take 32) (buf.drop 32) with
    | none =>
        if stampOf buf = 0 then .sent (create_timesync_packet now)
        else .sent buf
    | some s =>
        match parseMsg s with
        | none => .silent
        | some msg =>
            match route msg now with
            | none => .silent
            | some rp => .sent (encode (serializeResponse rp) (deviceIdOf buf))

namespace Codec

/-- Modelled from the spec: the body of `mod codec` (UDPCodec) is not
under src/, only its call sites in main.rs are.  The spec (section 4.1)
says the codec deterministically derives the session key from the Cloud
Key with the protocol's key-derivation function, whose exact algorithm
it leaves open; this definition stands in for that derivation as a
deterministic function of the Cloud Key bytes. -/
def deriveKey (cloudKey : String) : Nat :=
  List.foldl (fun a b => (a * 131 + b) % 4294967296) 5381
    (cloudKey.toUTF8.toList.map (fun b => b.toNat))

/-- Modelled from the spec: one byte of the keystream of the symmetric
cipher keyed by the derived session key; the spec leaves the concrete
cipher open. -/
def keystreamByte (key i : Nat) : Nat :=
  (key + (i + 1) * 2654435761) % 256

/-- Modelled from the spec: the symmetric encryption/decryption
transform (its own inverse), combining each plaintext byte at position
`i` with the keystream byte at `i`. -/
def xorStream (key : Nat) : Nat → List Nat → List Nat
  | _, [] => []
  | i, b :: bs => Nat.xor b (keystreamByte key i) :: xorStream key (i + 1) bs

/-- Modelled from the spec: the integrity checksum over the plaintext,
embedded in the frame and verified on decode; the spec leaves the
concrete algorithm open. -/
def checksum (bs : List Nat) : Nat :=
  List.foldl (fun a b => (a * 31 + b) % 4294967296) 0 bs

/-- Big-endian encoding of a 16-bit value into two bytes. -/
def be16 (n : Nat) : List Nat :=
  [n / 256 % 256, n % 256]

/-- Modelled from the spec: `UDPCodec::encode_response(plaintext,
device_id)` (spec section 4.1, `encode`): encrypt the plaintext with the
key derived from the Cloud Key, append the embedded checksum field, and
assemble a 32-byte header (magic/flags, body-length field, reserved
region, the supplied device identifier at offsets 8-11, stamp at 12-15,
filler) followed by the encrypted body. -/
def encode_response (cloudKey : String) (payload : List Nat)
    (deviceId : Nat) : List Nat :=
  let body := xorStream (deriveKey cloudKey) 0 payload
    ++ be32 (checksum payload)
  ([0x21, 0x31] ++ be16 ((32 + body.length) % 65536) ++ [0x00, 0x00, 0x00, 0x00]
      ++ be32 (deviceId % 4294967296) ++ be32 0 ++ List.replicate 16 0x00)
    ++ body

set_option linter.unusedVariables false in
/-- Modelled from the spec: `UDPCodec::decode_response(header,
encrypted_body)` (spec section 4.1, `decode`): derive the session key
from the Cloud Key, split off and verify the embedded checksum field,
and decrypt; returns `none` (a routine miss, not an error) when the body
is empty or too short to carry the checksum, or the checksum does not
match.  The plaintext is returned as bytes. -/
def decode_response (cloudKey : String) (header body : List Nat) :
    Option (List Nat) :=
  if body.length < 4 then none
  else if body.drop (body.length - 4)
      = be32 (checksum (xorStream (deriveKey cloudKey) 0
          (body.take (body.length - 4)))) then
    some (xorStream (deriveKey cloudKey) 0 (body.take (body.length - 4)))
  else none

end Codec

/-- The modelled cipher transform is its own inverse at every starting
position. -/
theorem xorStream_cancel (key : Nat) (bs : List Nat) :
    ∀ i, Codec.xorStream key i (Codec.xorStream key i bs) = bs := by
  induction bs with
  | nil => intro i; rfl
  | cons b bs ih =>
      intro i
      simp only [Codec.xorStream, List.cons.injEq]
      exact ⟨Nat.xor_cancel_right _ _, ih (i + 1)⟩

/-- The modelled cipher transform preserves length. -/
theorem xorStream_length (key : Nat) (bs : List Nat) :
    ∀ i, (Codec.xorStream key i bs).length = bs.length := by
  induction bs with
  | nil => intro i; rfl
  | cons b bs ih => intro i; simp [Codec.xorStream, ih (i + 1)]

/-- Claim C1: for every Cloud Key, device identifier and plaintext
payload, decoding the frame produced by encoding that payload (splitting
the frame into its 32-byte header and its body, as the receive loop
does) recovers the original payload byte-for-byte. -/
theorem codec_decode_encode_round_trip (cloudKey : String)
    (payload : List Nat) (deviceId : Nat) :
    Codec.decode_response cloudKey
      ((Codec.encode_response cloudKey payload deviceId).take 32)
      ((Codec.encode_response cloudKey payload deviceId).drop 32)
    = some payload := by
  have hctlen : (Codec.xorStream (Codec.deriveKey cloudKey) 0 payload).length
      = payload.length := xorStream_length _ payload 0
  set ct := Codec.xorStream (Codec.deriveKey cloudKey) 0 payload with hct
  set tag := be32 (Codec.checksum payload) with htag
  set hdr := ([0x21, 0x31]
      ++ Codec.be16 ((32 + (ct ++ tag).length) % 65536)
      ++ [0x00, 0x00, 0x00, 0x00] ++ be32 (deviceId % 4294967296)
      ++ be32 0 ++ List.replicate 16 0x00 : List Nat) with hhdr
  have henc : Codec.encode_response cloudKey payload deviceId
      = hdr ++ (ct ++ tag) := rfl
  have hhdrlen : hdr.length = 32 := by
    simp [hhdr, Codec.be16, be32]
  have hbodylen : (ct ++ tag).length = payload.length + 4 := by
    simp [htag, be32, hctlen]
  have htake : (ct ++ tag).take ((ct ++ tag).length - 4) = ct := by
    rw [hbodylen, Nat.add_sub_cancel, ← hctlen, List.take_left]
  have hdrop : (ct ++ tag).drop ((ct ++ tag).length - 4) = tag := by
    rw [hbodylen, Nat.add_sub_cancel, ← hctlen, List.drop_left]
  rw [henc, List.take_left' hhdrlen, List.drop_left' hhdrlen]
  unfold Codec.decode_response
  rw [if_neg (by omega : ¬ (ct ++ tag).length < 4), htake, hdrop,
    hct, xorStream_cancel, if_pos rfl]

/-- Claim C2: every timesync/handshake packet is exactly 32 bytes:
bytes 0-3 are 0x21 0x31 0x00 0x20, bytes 4-11 are 0xFF, bytes 12-15 are
the big-endian current Unix epoch second count truncated to 32 bits, and
bytes 16-31 are 0xFF; two packets built at different times agree on
every byte outside 12-15. -/
theorem create_timesync_packet_layout (now other : Nat) :
    (create_timesync_packet now).length = 32
    ∧ (create_timesync_packet now).take 12
        = [0x21, 0x31, 0x00, 0x20,
           0xff, 0xff, 0xff, 0xff, 0xff, 0xff, 0xff, 0xff]
    ∧ ((create_timesync_packet now).drop 12).take 4
        = be32 (now % 4294967296)
    ∧ (create_timesync_packet now).drop 16 = List.replicate 16 0xff
    ∧ (create_timesync_packet now).take 12
        = (create_timesync_packet other).take 12
    ∧ (create_timesync_packet now).drop 16
        = (create_timesync_packet other).drop 16 :=
  ⟨rfl, rfl, rfl, rfl, rfl, rfl⟩

/-- Claim C3: a received frame of at least 32 bytes whose stamp field
(header bytes 12-15, big-endian) is zero and whose body the codec fails
to decode is answered with the handshake/timesync packet, not with an
echo of the received bytes. -/
theorem decode_miss_stamp_zero_sends_timesync
    (decode : List Nat → List Nat → Option String)
    (encode : List Nat → Nat → List Nat)
    (parseMsg : String → Option MessagePayload)
    (now : Nat) (buf : List Nat)
    (hlen : 32 ≤ buf.length)
    (hdec : decode (buf.take 32) (buf.drop 32) = none)
    (hstamp : stampOf buf = 0) :
    processDatagram decode encode parseMsg now buf
      = .sent (create_timesync_packet now) := by
  have h32 : ¬ buf.length < 32 := by omega
  simp [processDatagram, h32, hdec, hstamp]

/-- Claim C4: a received frame of at least 32 bytes whose stamp field is
nonzero and whose body the codec fails to decode is echoed back exactly
as received, and nothing else is sent for that datagram. -/
theorem decode_miss_stamp_nonzero_echoes
    (decode : List Nat → List Nat → Option String)
    (encode : List Nat → Nat → List Nat)
    (parseMsg : String → Option MessagePayload)
    (now : Nat) (buf : List Nat)
    (hlen : 32 ≤ buf.length)
    (hdec : decode (buf.take 32) (buf.drop 32) = none)
    (hstamp : stampOf buf ≠ 0) :
    processDatagram decode encode parseMsg now buf = .sent buf := by
  have h32 : ¬ buf.length < 32 := by omega
  simp [processDatagram, h32, hdec, hstamp]

/-- Claim C8: a decodable frame whose plaintext fails to parse as a
request message yields no reply at all: the dispatcher continues with
the next datagram. -/
theorem decoded_parse_failure_silent
    (decode : List Nat → List Nat → Option String)
    (encode : List Nat → Nat → List Nat)
    (parseMsg : String → Option MessagePayload)
    (now : Nat) (buf : List Nat) (s : String)
    (hlen : 32 ≤ buf.length)
    (hdec : decode (buf.take 32) (buf.drop 32) = some s)
    (hparse : parseMsg s = none) :
    processDatagram decode encode parseMsg now buf = .silent := by
  have h32 : ¬ buf.length < 32 := by omega
  simp [processDatagram, h32, hdec, hparse]

/-- Claim C9: a decodable frame whose parsed request method matches none
of the known method names of the routing table yields no outbound packet
at all. -/
theorem unknown_method_silent
    (decode : List Nat → List Nat → Option String)
    (encode : List Nat → Nat → List Nat)
    (parseMsg : String → Option MessagePayload)
    (now : Nat) (buf : List Nat) (s : String) (msg : MessagePayload)
    (hlen : 32 ≤ buf.length)
    (hdec : decode (buf.take 32) (buf.drop 32) = some s)
    (hparse : parseMsg s = some msg)
    (hm : msg.method ∉ ["_otc.info", "props", "event.status",
      "event.low_power_back", "_sync.gen_presigned_url",
      "_sync.batch_gen_room_up_url"]) :
    processDatagram decode encode parseMsg now buf = .silent := by
  simp only [List.mem_cons, List.not_mem_nil, or_false, not_or] at hm
  obtain ⟨h1, h2, h3, h4, h5, h6⟩ := hm
  have hroute : route msg now = none := by
    unfold route
    rw [if_neg h1, if_neg (by simp [h2, h3, h4]), if_neg h5, if_neg h6]
  have h32 : ¬ buf.length < 32 := by omega
  simp [processDatagram, h32, hdec, hparse, hroute]

/-- Claim C10: per-datagram processing panics (out-of-bounds slice at
main.rs line 85) exactly when the received datagram is shorter than 32
bytes; for 32 bytes or more it always completes with one of the routine
outcomes. -/
theorem processDatagram_crash_iff
    (decode : List Nat → List Nat → Option String)
    (encode : List Nat → Nat → List Nat)
    (parseMsg : String → Option MessagePayload)
    (now : Nat) (buf : List Nat) :
    processDatagram decode encode parseMsg now buf = .crash
      ↔ buf.length < 32 := by
  unfold processDatagram
  by_cases h32 : buf.length < 32
  · simp [h32]
  · simp only [if_neg h32, h32, iff_false]
    cases hdec : decode (buf.take 32) (buf.drop 32) with
    | none => by_cases hst : stampOf buf = 0 <;> simp [hst]
    | some s =>
        cases hparse : parseMsg s with
        | none => simp [hparse]
        | some msg =>
            cases hroute : route msg now with
            | none => simp [hparse, hroute]
            | some rp => simp [hparse, hroute]

/-- Claim C5: every response the routing table produces carries the `id`
of the originating request. -/
theorem route_echoes_id (msg : MessagePayload) (now : Nat)
    (rp : ResponsePayload) (h : route msg now = some rp) :
    rp.id = msg.id := by
  unfold route ResponsePayload.new at h
  repeat' split at h
  all_goals cases h <;> rfl

/-- Claim C6: a request whose method is exactly `props`, `event.status`
or `event.low_power_back` is answered with the response whose `result`
is the literal JSON string `ok` and whose `id` echoes the request. -/
theorem route_ok_methods (msg : MessagePayload) (now : Nat)
    (h : msg.method = "props" ∨ msg.method = "event.status"
      ∨ msg.method = "event.low_power_back") :
    route msg now = some (ResponsePayload.new msg.id (Json.str "ok")) := by
  have hne : msg.method ≠ "_otc.info" := by
    rcases h with h | h | h <;> simp [h]
  unfold route
  rw [if_neg hne, if_pos h]

/-- Claim C7: a request whose method is `_sync.batch_gen_room_up_url` is
answered with a fixed ordered list of exactly four URL strings as the
`result`, independent of the wall clock (hence identical on every
call). -/
theorem route_room_up_url (msg : MessagePayload) (now : Nat)
    (h : msg.method = "_sync.batch_gen_room_up_url") :
    route msg now = some (ResponsePayload.new msg.id
      (Json.arr
        [Json.str "http://us.ott.io.mi.com/robomap/1",
         Json.str "http://us.ott.io.mi.com/robomap/2",
         Json.str "http://us.ott.io.mi.com/robomap/3",
         Json.str "http://us.ott.io.mi.com/robomap/4"])) := by
  simp [route, h, roomUpUrlsResult]

/-- Witness for claim C3 at a concrete all-zero 32-byte datagram, a
decode-miss codec and a time of 5 seconds past the epoch. -/
theorem decode_miss_stamp_zero_sends_timesync_witness :
    processDatagram (fun _ _ => none) (fun bs _ => bs) (fun _ => none) 5
        (List.replicate 32 0)
      = .sent (create_timesync_packet 5) :=
  decode_miss_stamp_zero_sends_timesync (fun _ _ => none) (fun bs _ => bs)
    (fun _ => none) 5 (List.replicate 32 0) (by decide) rfl (by decide)

/-- Witness for claim C4 at a concrete all-ones 32-byte datagram (stamp
0x01010101) and a decode-miss codec. -/
theorem decode_miss_stamp_nonzero_echoes_witness :
    processDatagram (fun _ _ => none) (fun bs _ => bs) (fun _ => none) 5
        (List.replicate 32 1)
      = .sent (List.replicate 32 1) :=
  decode_miss_stamp_nonzero_echoes (fun _ _ => none) (fun bs _ => bs)
    (fun _ => none) 5 (List.replicate 32 1) (by decide) rfl (by decide)

/-- Witness for claim C8: a codec that decodes to a non-JSON plaintext
and a parser that rejects it. -/
theorem decoded_parse_failure_silent_witness :
    processDatagram (fun _ _ => some "?") (fun bs _ => bs) (fun _ => none) 5
        (List.replicate 32 0)
      = .silent :=
  decoded_parse_failure_silent (fun _ _ => some "?") (fun bs _ => bs)
    (fun _ => none) 5 (List.replicate 32 0) "?" (by decide) rfl rfl

/-- Witness for claim C9: a parsed request with the unrecognized method
`get_status`. -/
theorem unknown_method_silent_witness :
    processDatagram (fun _ _ => some "m") (fun bs _ => bs)
        (fun _ => some (MessagePayload.mk "get_status" none 7 Json.null)) 5
        (List.replicate 32 0)
      = .silent :=
  unknown_method_silent (fun _ _ => some "m") (fun bs _ => bs)
    (fun _ => some (MessagePayload.mk "get_status" none 7 Json.null)) 5
    (List.replicate 32 0) "m" (MessagePayload.mk "get_status" none 7 Json.null)
    (by decide) rfl rfl (by decide)

/-- Witness for claim C5 at the concrete request `props` with id 42. -/
theorem route_echoes_id_witness :
    route (MessagePayload.mk "props" none 42 Json.null) 0
        = some (ResponsePayload.new 42 (Json.str "ok"))
      ∧ (ResponsePayload.new 42 (Json.str "ok")).id
        = (MessagePayload.mk "props" none 42 Json.null).id :=
  ⟨rfl, route_echoes_id (MessagePayload.mk "props" none 42 Json.null) 0
    (ResponsePayload.new 42 (Json.str "ok")) rfl⟩

/-- Witness for claim C6 at the concrete request `event.status` with
id 9. -/
theorem route_ok_methods_witness :
    route (MessagePayload.mk "event.status" none 9 Json.null) 3
      = some (ResponsePayload.new 9 (Json.str "ok")) :=
  route_ok_methods (MessagePayload.mk "event.status" none 9 Json.null) 3
    (Or.inr (Or.inl rfl))

/-- Witness for claim C7 at the concrete request
`_sync.batch_gen_room_up_url` with id 11. -/
theorem route_room_up_url_witness :
    route (MessagePayload.mk "_sync.batch_gen_room_up_url" none 11 Json.null) 3
      = some (ResponsePayload.new 11
        (Json.arr
          [Json.str "http://us.ott.io.mi.com/robomap/1",
           Json.str "http://us.ott.io.mi.com/robomap/2",
           Json.str "http://us.ott.io.mi.com/robomap/3",
           Json.str "http://us.ott.io.mi.com/robomap/4"])) :=
  route_room_up_url
    (MessagePayload.mk "_sync.batch_gen_room_up_url" none 11 Json.null) 3 rfl
